import Mathlib

set_option maxRecDepth 100000

/-!
Shallow embedding of the hash engine of the hashing repository
(source/sha256.c, source/md5.h, source/hashing.c) and verification of its
specification.

Machine integers are modelled as Nat with explicit reduction mod 2^32
(respectively 2^64 for the C uint64_t length).  A C uint32_t array is
modelled as a List Nat whose entries stay below 2^32; reading uses
List.getD (index, default 0) and writing uses List.set, mirroring the
source's index arithmetic.  A message buffer is a function Nat → Nat
giving the byte at each index (the code masks each byte below 256 itself:
it only ever tests bits 0..7 of a byte).  The C digest buffers (char[64]
and char[32], not null terminated) are modelled as List Char.
-/

/-- Reduction mod 2^32, the implicit wrap-around of C uint32_t addition. -/
def add32 (a b : Nat) : Nat := (a + b) % 4294967296

/-- C bitwise complement on a uint32_t value. -/
def not32 (a : Nat) : Nat := a ^^^ 0xffffffff

/-! ## source/sha256.c -/

/-- RROTATE(a, b) from sha256.c: (a >> b) | (a << (32 - b)) on uint32_t;
the left shift wraps mod 2^32. -/
def RROTATE (a b : Nat) : Nat := (a >>> b) ||| ((a <<< (32 - b)) % 4294967296)

/-- SIG0(x) from sha256.c. -/
def SIG0 (x : Nat) : Nat := RROTATE x 7 ^^^ RROTATE x 18 ^^^ (x >>> 3)

/-- SIG1(x) from sha256.c. -/
def SIG1 (x : Nat) : Nat := RROTATE x 17 ^^^ RROTATE x 19 ^^^ (x >>> 10)

/-- CHOISE(e, f, g) from sha256.c: (e & f) ^ (~e & g). -/
def CHOISE (e f g : Nat) : Nat := (e &&& f) ^^^ (not32 e &&& g)

/-- MAJORITY(a, b, c) from sha256.c. -/
def MAJORITY (a b c : Nat) : Nat := (a &&& b) ^^^ (a &&& c) ^^^ (b &&& c)

/-- SUM0(x) from sha256.c. -/
def SUM0 (x : Nat) : Nat := RROTATE x 2 ^^^ RROTATE x 13 ^^^ RROTATE x 22

/-- SUM1(x) from sha256.c. -/
def SUM1 (x : Nat) : Nat := RROTATE x 6 ^^^ RROTATE x 11 ^^^ RROTATE x 25

/-- The SHA-256 round constant table k[64] from sha256.c. -/
def k : List Nat := [
  0x428A2F98, 0x71374491, 0xB5C0FBCF, 0xE9B5DBA5,
  0x3956C25B, 0x59F111F1, 0x923F82A4, 0xAB1C5ED5,
  0xD807AA98, 0x12835B01, 0x243185BE, 0x550C7DC3,
  0x72BE5D74, 0x80DEB1FE, 0x9BDC06A7, 0xC19BF174,
  0xE49B69C1, 0xEFBE4786, 0x0FC19DC6, 0x240CA1CC,
  0x2DE92C6F, 0x4A7484AA, 0x5CB0A9DC, 0x76F988DA,
  0x983E5152, 0xA831C66D, 0xB00327C8, 0xBF597FC7,
  0xC6E00BF3, 0xD5A79147, 0x06CA6351, 0x14292967,
  0x27B70A85, 0x2E1B2138, 0x4D2C6DFC, 0x53380D13,
  0x650A7354, 0x766A0ABB, 0x81C2C92E, 0x92722C85,
  0xA2BFE8A1, 0xA81A664B, 0xC24B8B70, 0xC76C51A3,
  0xD192E819, 0xD6990624, 0xF40E3585, 0x106AA070,
  0x19A4C116, 0x1E376C08, 0x2748774C, 0x34B0BCB5,
  0x391C0CB3, 0x4ED8AA4A, 0x5B9CCA4F, 0x682E6FF3,
  0x748F82EE, 0x78A5636F, 0x84C87814, 0x8CC70208,
  0x90BEFFFA, 0xA4506CEB, 0xBEF9A3F7, 0xC67178F2]

/-- One lowercase hexadecimal digit, as produced by the %08x conversion in
sprintf (sha256.c hs_hash, md5.h md5_abcd_hash). -/
def hexChar (n : Nat) : Char :=
  if n < 10 then Char.ofNat (48 + n) else Char.ofNat (87 + n)

/-- The 8 lowercase hex characters sprintf("%08x", w) writes for a
uint32_t value w: nibbles from most significant to least significant. -/
def word_hex (w : Nat) : List Char :=
  (List.range 8).map (fun i => hexChar ((w >>> ((7 - i) * 4)) &&& 15))

/-- hs_hash from sha256.c: the loop sprintf-s each of the 8 "h"-values as
8 hex characters at offset index * 8, producing the 64-character digest. -/
def hs_hash (hs : List Nat) : List Char :=
  ((List.range 8).map (fun index => word_hex (hs.getD index 0))).flatten

/-- w_create from sha256.c: copy the 16 chunk words, then extend to 64
words with w[i] = w[i-16] + SIG0(w[i-15]) + w[i-7] + SIG1(w[i-2]),
all uint32_t additions. -/
def w_create (chunk : List Nat) : List Nat :=
  (List.range 48).foldl
    (fun w _ =>
      let word1 := w.getD (w.length - 16) 0
      let word2 := SIG0 (w.getD (w.length - 15) 0)
      let word3 := w.getD (w.length - 7) 0
      let word4 := SIG1 (w.getD (w.length - 2) 0)
      w ++ [add32 (add32 (add32 word1 word2) word3) word4])
    (chunk.take 16)

/-- hs_w_update from sha256.c: 64 compression rounds on the working
variables (a, b, c, d, e, f, g, h), then add them into the "h"-values. -/
def hs_w_update (hs : List Nat) (w : List Nat) : List Nat :=
  let init := (hs.getD 0 0, hs.getD 1 0, hs.getD 2 0, hs.getD 3 0,
               hs.getD 4 0, hs.getD 5 0, hs.getD 6 0, hs.getD 7 0)
  let fin := (List.range 64).foldl
    (fun s index =>
      match s with
      | (a, b, c, d, e, f, g, h) =>
        let t1 := add32 (add32 (add32 (add32 h (SUM1 e)) (CHOISE e f g))
                    (k.getD index 0)) (w.getD index 0)
        let t2 := add32 (SUM0 a) (MAJORITY a b c)
        (add32 t1 t2, a, b, c, add32 d t1, e, f, g))
    init
  match fin with
  | (a, b, c, d, e, f, g, h) =>
    [add32 (hs.getD 0 0) a, add32 (hs.getD 1 0) b,
     add32 (hs.getD 2 0) c, add32 (hs.getD 3 0) d,
     add32 (hs.getD 4 0) e, add32 (hs.getD 5 0) f,
     add32 (hs.getD 6 0) g, add32 (hs.getD 7 0) h]

/-- hs_chunk_update from sha256.c. -/
def hs_chunk_update (hs : List Nat) (chunk : List Nat) : List Nat :=
  hs_w_update hs (w_create chunk)

/-- BIT_SET from sha256.c: set bit BIT (most-significant-bit-first inside
each 32-bit word) of the word array. -/
def BIT_SET (words : List Nat) (bit : Nat) : List Nat :=
  words.set (bit >>> 5)
    (words.getD (bit >>> 5) 0 ||| (1 <<< (31 - (bit &&& 31))))

/-- BIT_OFF from sha256.c: clear bit BIT of the word array (the C
complement of the one-bit mask is taken on 32 bits). -/
def BIT_OFF (words : List Nat) (bit : Nat) : List Nat :=
  words.set (bit >>> 5)
    (words.getD (bit >>> 5) 0 &&& not32 (1 <<< (31 - (bit &&& 31))))

/-- block_message_prepend from sha256.c: for every byte index and every
bit 0..7, test bit (7 - bit) of the message byte and set or clear block
bit (index * 8 + bit). -/
def block_message_prepend (block : List Nat) (message : Nat → Nat)
    (size : Nat) : List Nat :=
  (List.range size).foldl
    (fun blk index =>
      (List.range 8).foldl
        (fun b bit =>
          if message index &&& (1 <<< (7 - bit)) ≠ 0 then
            BIT_SET b (index * 8 + bit)
          else
            BIT_OFF b (index * 8 + bit))
        blk)
    block

/-- INIT_CHUNKS(SIZE) from sha256.c: ceil(size / 64) via
(SIZE & 0b111111) and SIZE >> 6. -/
def INIT_CHUNKS (SIZE : Nat) : Nat :=
  if SIZE &&& 63 ≠ 0 then (SIZE >>> 6) + 1 else SIZE >>> 6

/-- MOD_BITS(SIZE) from sha256.c: message bits in the last chunk. -/
def MOD_BITS (SIZE : Nat) : Nat := (SIZE &&& 63) * 8

/-- CHUNKS(SIZE) from sha256.c; EXTRA_CHUNK(SIZE) is the inlined
condition (SIZE & 0b111000) == 0b111000. -/
def CHUNKS (SIZE : Nat) : Nat :=
  if SIZE = 0 then 1
  else if SIZE &&& 56 = 56 then INIT_CHUNKS SIZE + 1
  else INIT_CHUNKS SIZE

/-- ZEROS(SIZE) from sha256.c, with the same inlined EXTRA_CHUNK test. -/
def ZEROS (SIZE : Nat) : Nat :=
  if SIZE = 0 then 448
  else if SIZE &&& 56 = 56 then 959 - MOD_BITS SIZE
  else 447 - MOD_BITS SIZE

/-- block_create from sha256.c.  The uninitialised C block array
(uint32_t block[chunks * 16], a VLA) is made explicit as the initial
list `block`; the top level sha256 below passes an all-zero list of the
right length.  Steps: prepend the message bits, set the terminator bit,
clear `zeros` bits, then store the 64-bit bit length big-endian in the
last two words. -/
def block_create (block : List Nat) (chunks zeros : Nat)
    (message : Nat → Nat) (size : Nat) : List Nat :=
  let b1 := block_message_prepend block message size
  let b2 := BIT_SET b1 (size * 8)
  let b3 := (List.range zeros).foldl
    (fun b index => BIT_OFF b (size * 8 + 1 + index)) b2
  let length := (size * 8) % 18446744073709551616
  let b4 := b3.set (chunks * 16 - 2) ((length >>> 32) % 4294967296)
  b4.set (chunks * 16 - 1) (length % 4294967296)

/-- The SHA-256 initial "h"-values from block_hash in sha256.c. -/
def hs_init : List Nat :=
  [0x6A09E667, 0xBB67AE85, 0x3C6EF372, 0xA54FF53A,
   0x510E527F, 0x9B05688C, 0x1F83D9AB, 0x5BE0CD19]

/-- block_hash from sha256.c: fold every 16-word chunk of the block into
the "h"-values, then render the digest. -/
def block_hash (block : List Nat) (chunks : Nat) : List Char :=
  let hs := (List.range chunks).foldl
    (fun hs index => hs_chunk_update hs ((block.drop (index * 16)).take 16))
    hs_init
  hs_hash hs

/-- sha256 from sha256.c, as a function from message buffer and byte
count to the 64-character digest. -/
def sha256 (message : Nat → Nat) (size : Nat) : List Char :=
  let chunks := CHUNKS size
  let zeros := ZEROS size
  let block := block_create (List.replicate (chunks * 16) 0) chunks zeros
    message size
  block_hash block chunks

/-! ## source/md5.h -/

/-- MD5_LENDIAN(WORD) from md5.h: byte-order reversal of a 32-bit word. -/
def MD5_LENDIAN (w : Nat) : Nat :=
  ((w <<< 24) &&& 0xff000000) ||| ((w <<< 8) &&& 0x00ff0000) |||
  ((w >>> 8) &&& 0x0000ff00) ||| ((w >>> 24) &&& 0x000000ff)

/-- MD5_LROTATE(a, b) from md5.h: (a << b) | (a >> (32 - b)) on
uint32_t; the left shift wraps mod 2^32. -/
def MD5_LROTATE (a b : Nat) : Nat :=
  ((a <<< b) % 4294967296) ||| (a >>> (32 - b))

/-- The MD5 round constant table MD5_K[64] from md5.h. -/
def MD5_K : List Nat := [
  0xD76AA478, 0xE8C7B756, 0x242070DB, 0xC1BDCEEE,
  0xF57C0FAF, 0x4787C62A, 0xA8304613, 0xFD469501,
  0x698098D8, 0x8B44F7AF, 0xFFFF5BB1, 0x895CD7BE,
  0x6B901122, 0xFD987193, 0xA679438E, 0x49B40821,
  0xF61E2562, 0xC040B340, 0x265E5A51, 0xE9B6C7AA,
  0xD62F105D, 0x02441453, 0xD8A1E681, 0xE7D3FBC8,
  0x21E1CDE6, 0xC33707D6, 0xF4D50D87, 0x455A14ED,
  0xA9E3E905, 0xFCEFA3F8, 0x676F02D9, 0x8D2A4C8A,
  0xFFFA3942, 0x8771F681, 0x6D9D6122, 0xFDE5380C,
  0xA4BEEA44, 0x4BDECFA9, 0xF6BB4B60, 0xBEBFBC70,
  0x289B7EC6, 0xEAA127FA, 0xD4EF3085, 0x04881D05,
  0xD9D4D039, 0xE6DB99E5, 0x1FA27CF8, 0xC4AC5665,
  0xF4292244, 0x432AFF97, 0xAB9423A7, 0xFC93A039,
  0x655B59C3, 0x8F0CCC92, 0xFFEFF47D, 0x85845DD1,
  0x6FA87E4F, 0xFE2CE6E0, 0xA3014314, 0x4E0811A1,
  0xF7537E82, 0xBD3AF235, 0x2AD7D2BB, 0xEB86D391]

/-- The MD5 rotation table MD5_S[16] from md5.h. -/
def MD5_S : List Nat := [7, 12, 17, 22, 5, 9, 14, 20, 4, 11, 16, 23, 6, 10, 15, 21]

/-- md5_abcd_hash from md5.h: sprintf each of the 4 abcd-values, first
byte-swapped by MD5_LENDIAN, as 8 hex characters at offset index * 8,
producing the 32-character digest. -/
def md5_abcd_hash (abcd : List Nat) : List Char :=
  ((List.range 4).map
    (fun index => word_hex (MD5_LENDIAN (abcd.getD index 0)))).flatten

/-- md5_abcd_chunk_update from md5.h: 64 MD5 rounds on the working
variables (a, b, c, d), then add them into the abcd-values. -/
def md5_abcd_chunk_update (abcd : List Nat) (chunk : List Nat) : List Nat :=
  let init := (abcd.getD 0 0, abcd.getD 1 0, abcd.getD 2 0, abcd.getD 3 0)
  let fin := (List.range 64).foldl
    (fun s i =>
      match s with
      | (a, b, c, d) =>
        let fg : Nat × Nat :=
          if i < 16 then ((b &&& c) ||| (not32 b &&& d), i)
          else if i < 32 then ((b &&& d) ||| (c &&& not32 d), (5 * i + 1) &&& 15)
          else if i < 48 then (b ^^^ c ^^^ d, (3 * i + 5) &&& 15)
          else (c ^^^ (b ||| not32 d), (7 * i) &&& 15)
        let si := ((i >>> 4) <<< 2) + (i &&& 3)
        let f2 := add32 (add32 (add32 fg.1 a) (MD5_K.getD i 0))
          (chunk.getD fg.2 0)
        (d, add32 b (MD5_LROTATE f2 (MD5_S.getD si 0)), b, c))
    init
  match fin with
  | (a, b, c, d) =>
    [add32 (abcd.getD 0 0) a, add32 (abcd.getD 1 0) b,
     add32 (abcd.getD 2 0) c, add32 (abcd.getD 3 0) d]

/-- MD5_BIT_SET from md5.h (same word and bit addressing as sha256.c). -/
def MD5_BIT_SET (words : List Nat) (bit : Nat) : List Nat :=
  words.set (bit >>> 5)
    (words.getD (bit >>> 5) 0 ||| (1 <<< (31 - (bit &&& 31))))

/-- MD5_BIT_OFF from md5.h. -/
def MD5_BIT_OFF (words : List Nat) (bit : Nat) : List Nat :=
  words.set (bit >>> 5)
    (words.getD (bit >>> 5) 0 &&& not32 (1 <<< (31 - (bit &&& 31))))

/-- md5_block_message_prepend from md5.h (same loops as
block_message_prepend in sha256.c). -/
def md5_block_message_prepend (block : List Nat) (message : Nat → Nat)
    (size : Nat) : List Nat :=
  (List.range size).foldl
    (fun blk index =>
      (List.range 8).foldl
        (fun b bit =>
          if message index &&& (1 <<< (7 - bit)) ≠ 0 then
            MD5_BIT_SET b (index * 8 + bit)
          else
            MD5_BIT_OFF b (index * 8 + bit))
        blk)
    block

/-- MD5_INITIAL_CHUNKS(SIZE) from md5.h. -/
def MD5_INITIAL_CHUNKS (SIZE : Nat) : Nat :=
  if SIZE &&& 63 ≠ 0 then (SIZE >>> 6) + 1 else SIZE >>> 6

/-- MD5_CHUNKS(SIZE) from md5.h; MD5_EXTRA_CHUNK(SIZE) is the inlined
condition ((SIZE & 0b111000) == 0b111000) || ((SIZE & 0b111111) == 0). -/
def MD5_CHUNKS (SIZE : Nat) : Nat :=
  if SIZE &&& 56 = 56 ∨ SIZE &&& 63 = 0 then MD5_INITIAL_CHUNKS SIZE + 1
  else MD5_INITIAL_CHUNKS SIZE

/-- MD5_ZEROS(SIZE, CHUNKS) from md5.h. -/
def MD5_ZEROS (SIZE CHUNKS : Nat) : Nat :=
  (CHUNKS * 64 - SIZE) * 8 - 64 - 1

/-- The state of the MD5 block after steps 1 to 3 of md5_block_create in
md5.h (message bits prepended, terminator bit set, `zeros` bits
cleared), before the little-endian word conversion and the length
words. -/
def md5_bits_stage (block : List Nat) (zeros : Nat) (message : Nat → Nat)
    (size : Nat) : List Nat :=
  (List.range zeros).foldl
    (fun b index => MD5_BIT_OFF b (size * 8 + 1 + index))
    (MD5_BIT_SET (md5_block_message_prepend block message size) (size * 8))

/-- md5_block_create from md5.h.  After the bit stage, every word except
the last two is byte-order-reversed by MD5_LENDIAN, then the 64-bit bit
length is stored with its low 32-bit word at index chunks * 16 - 2 and
its high word at index chunks * 16 - 1.  As in block_create, the
uninitialised C buffer is the explicit initial list `block`. -/
def md5_block_create (block : List Nat) (chunks zeros : Nat)
    (message : Nat → Nat) (size : Nat) : List Nat :=
  let b3 := md5_bits_stage block zeros message size
  let b4 := (List.range (chunks * 16 - 2)).foldl
    (fun b index => b.set index (MD5_LENDIAN (b.getD index 0))) b3
  let length := (size * 8) % 18446744073709551616
  let b5 := b4.set (chunks * 16 - 1) ((length >>> 32) % 4294967296)
  b5.set (chunks * 16 - 2) (length % 4294967296)

/-- The MD5 initial abcd-values from md5_block_hash in md5.h. -/
def abcd_init : List Nat := [0x67452301, 0xEFCDAB89, 0x98BADCFE, 0x10325476]

/-- md5_block_hash from md5.h. -/
def md5_block_hash (block : List Nat) (chunks : Nat) : List Char :=
  let abcd := (List.range chunks).foldl
    (fun abcd index =>
      md5_abcd_chunk_update abcd ((block.drop (index * 16)).take 16))
    abcd_init
  md5_abcd_hash abcd

/-- md5 from md5.h (the successful-allocation behaviour), as a function
from message buffer and byte count to the 32-character digest. -/
def md5 (message : Nat → Nat) (size : Nat) : List Char :=
  let chunks := MD5_CHUNKS size
  let zeros := MD5_ZEROS size chunks
  let block := md5_block_create (List.replicate (chunks * 16) 0) chunks
    zeros message size
  md5_block_hash block chunks

/-- md5 from md5.h with the outcome of the malloc call made explicit.
The source stores the malloc result in `block` and passes it straight to
md5_block_create with no null check; when the allocation fails the very
first write through the block pointer (the terminator bit of
MD5_BIT_SET, reached even for size 0) dereferences a null pointer, which
is modelled as the error outcome. -/
def md5_run (alloc_ok : Bool) (message : Nat → Nat) (size : Nat) :
    Except String (List Char) :=
  let chunks := MD5_CHUNKS size
  let zeros := MD5_ZEROS size chunks
  if alloc_ok then
    Except.ok (md5_block_hash
      (md5_block_create (List.replicate (chunks * 16) 0) chunks zeros
        message size) chunks)
  else
    Except.error "null block dereference in md5_block_create"

/-! ## source/hashing.c -/

/-- message_hash_create from hashing.c.  The global args.algorithm
selector is the explicit `algorithm` argument (none models a NULL
pointer); the caller's digest buffer is the explicit `hash` argument and
is returned unchanged on the status-0 paths, since the source only
writes it through sha256 or md5. -/
def message_hash_create (algorithm : Option String) (hash : List Char)
    (message : Nat → Nat) (size : Nat) : Nat × List Char :=
  match algorithm with
  | none => (0, hash)
  | some a =>
    if a = "sha256" then (1, sha256 message size)
    else if a = "md5" then (2, md5 message size)
    else (0, hash)

/-! ## Arithmetic facts about the padding planners -/

/-- The mask 0b111111 extracts the residue mod 64. -/
lemma and_63_eq_mod (L : Nat) : L &&& 63 = L % 64 := by
  have h := Nat.and_pow_two_sub_one_eq_mod L 6
  norm_num at h
  exact h

/-- The shift by 6 is division by 64. -/
lemma shiftRight_6_eq_div (L : Nat) : L >>> 6 = L / 64 := by
  have h := Nat.shiftRight_eq_div_pow L 6
  norm_num at h
  exact h

/-- Below 64, matching the mask 0b111000 exactly means being at least 56. -/
lemma and_56_cases : ∀ r, r < 64 → ((r &&& 56 = 56) ↔ 56 ≤ r) := by decide

/-- The EXTRA_CHUNK test (SIZE & 0b111000) == 0b111000 holds exactly when
the residue of SIZE mod 64 is at least 56. -/
lemma and_56_eq_iff (L : Nat) : (L &&& 56 = 56) ↔ 56 ≤ L % 64 := by
  have h1 : L % 64 &&& 56 = L &&& 56 := by
    have h2 : (63 : Nat) &&& 56 = 56 := by decide
    rw [← and_63_eq_mod, Nat.land_assoc, h2]
  rw [← h1]
  exact and_56_cases (L % 64) (Nat.mod_lt L (by norm_num))

/-- Closed arithmetic form of CHUNKS from sha256.c. -/
lemma CHUNKS_eq (L : Nat) : CHUNKS L =
    if L = 0 then 1
    else if 56 ≤ L % 64 then L / 64 + 2
    else if L % 64 = 0 then L / 64
    else L / 64 + 1 := by
  unfold CHUNKS INIT_CHUNKS
  simp only [and_63_eq_mod, shiftRight_6_eq_div, and_56_eq_iff]
  split_ifs <;> omega

/-- Closed arithmetic form of ZEROS from sha256.c. -/
lemma ZEROS_eq (L : Nat) : ZEROS L =
    if L = 0 then 448
    else if 56 ≤ L % 64 then 959 - L % 64 * 8
    else 447 - L % 64 * 8 := by
  unfold ZEROS MOD_BITS
  simp only [and_63_eq_mod, and_56_eq_iff]

/-- Closed arithmetic form of MD5_CHUNKS from md5.h. -/
lemma MD5_CHUNKS_eq (L : Nat) : MD5_CHUNKS L =
    if 56 ≤ L % 64 then L / 64 + 2 else L / 64 + 1 := by
  unfold MD5_CHUNKS MD5_INITIAL_CHUNKS
  simp only [and_63_eq_mod, shiftRight_6_eq_div, and_56_eq_iff]
  split_ifs <;> omega

/-- Claim C1, counterexample: at byte length 0 the SHA-256 planner
returns C = 1 and Z = 448, and 1 * 512 = 512 differs from
0 * 8 + 1 + 448 + 64 = 513, so the reconstruction identity fails; the
MD5 planner does satisfy the identity at 0, but only because it returns
Z = 447, not the claimed 448. -/
theorem c1_identity_cex :
    CHUNKS 0 * 512 ≠ 0 * 8 + 1 + ZEROS 0 + 64
  ∧ MD5_ZEROS 0 (MD5_CHUNKS 0) ≠ 448 := by decide

/-- Claim C1 (amended): the MD5 planner satisfies the reconstruction
identity C * 512 = L * 8 + 1 + Z + 64 for every L (so at L = 0 it
returns C = 1 and Z = 447, the true minimum).  The SHA-256 planner
satisfies the identity exactly when L mod 64 is nonzero: at L = 0 it
returns C = 1 and Z = 448, one zero bit more than the minimum, and at
positive multiples of 64 its block count falls 512 bits short of the
identity. -/
theorem c1_padding_identity :
    (∀ L, MD5_CHUNKS L * 512 = L * 8 + 1 + MD5_ZEROS L (MD5_CHUNKS L) + 64)
  ∧ (∀ L, L % 64 ≠ 0 → CHUNKS L * 512 = L * 8 + 1 + ZEROS L + 64)
  ∧ CHUNKS 0 = 1 ∧ ZEROS 0 = 448
  ∧ MD5_CHUNKS 0 = 1 ∧ MD5_ZEROS 0 (MD5_CHUNKS 0) = 447
  ∧ (∀ L, L ≠ 0 → L % 64 = 0 →
      CHUNKS L * 512 + 512 = L * 8 + 1 + ZEROS L + 64) := by
  refine ⟨fun L => ?_, fun L h => ?_, by decide, by decide, by decide,
    by decide, fun L h1 h2 => ?_⟩
  · unfold MD5_ZEROS
    rw [MD5_CHUNKS_eq]
    split_ifs <;> omega
  · rw [CHUNKS_eq, ZEROS_eq]
    split_ifs <;> omega
  · rw [CHUNKS_eq, ZEROS_eq]
    split_ifs <;> omega

/-- Claim C1 witness: the amended identity evaluated at the concrete
lengths 3 (SHA-256 branch) and 64 (deficient branch). -/
theorem c1_padding_identity_witness :
    CHUNKS 3 * 512 = 3 * 8 + 1 + ZEROS 3 + 64
  ∧ CHUNKS 64 * 512 + 512 = 64 * 8 + 1 + ZEROS 64 + 64 :=
  ⟨c1_padding_identity.2.1 3 (by decide),
   c1_padding_identity.2.2.2.2.2.2 64 (by decide) (by decide)⟩

/-- Claim C2, counterexample: the claimed boundary block counts
{1,2,2,2,1,2,2} for lengths 0,55,56,63,64,119,120 are wrong at 55
(both planners and the formula give 1), at 64 (the formula and the MD5
planner give 2 while the SHA-256 planner gives 1) and at 120 (both
planners and the formula give 3). -/
theorem c2_block_count_cex :
    CHUNKS 55 = 1 ∧ MD5_CHUNKS 55 = 1 ∧ (55 * 8 + 65 + 511) / 512 = 1
  ∧ CHUNKS 64 = 1 ∧ MD5_CHUNKS 64 = 2 ∧ (64 * 8 + 65 + 511) / 512 = 2
  ∧ CHUNKS 120 = 3 ∧ MD5_CHUNKS 120 = 3
  ∧ (120 * 8 + 65 + 511) / 512 = 3 := by decide

/-- Claim C2 (amended): for every byte length L the MD5 block count is
exactly the minimum ⌈(L * 8 + 65) / 512⌉; the SHA-256 block count
equals that minimum exactly when L is not a positive multiple of 64,
and is one less than the minimum at positive multiples of 64.  The
boundary lengths 0,55,56,63,64,119,120 produce MD5 block counts
1,1,2,2,2,2,3 and SHA-256 block counts 1,1,2,2,1,2,3. -/
theorem c2_block_count :
    (∀ L, MD5_CHUNKS L = (L * 8 + 65 + 511) / 512)
  ∧ (∀ L, L % 64 ≠ 0 → CHUNKS L = (L * 8 + 65 + 511) / 512)
  ∧ (∀ L, 0 < L → L % 64 = 0 → CHUNKS L + 1 = (L * 8 + 65 + 511) / 512)
  ∧ (CHUNKS 0 = 1 ∧ CHUNKS 55 = 1 ∧ CHUNKS 56 = 2 ∧ CHUNKS 63 = 2
      ∧ CHUNKS 64 = 1 ∧ CHUNKS 119 = 2 ∧ CHUNKS 120 = 3)
  ∧ (MD5_CHUNKS 0 = 1 ∧ MD5_CHUNKS 55 = 1 ∧ MD5_CHUNKS 56 = 2
      ∧ MD5_CHUNKS 63 = 2 ∧ MD5_CHUNKS 64 = 2 ∧ MD5_CHUNKS 119 = 2
      ∧ MD5_CHUNKS 120 = 3) := by
  refine ⟨fun L => ?_, fun L h => ?_, fun L h1 h2 => ?_, by decide, by decide⟩
  · rw [MD5_CHUNKS_eq]
    split_ifs <;> omega
  · rw [CHUNKS_eq]
    split_ifs <;> omega
  · rw [CHUNKS_eq]
    split_ifs <;> omega

/-- Claim C2 witness: the amended block-count formulas evaluated at the
concrete lengths 3 and 64. -/
theorem c2_block_count_witness :
    CHUNKS 3 = (3 * 8 + 65 + 511) / 512
  ∧ CHUNKS 64 + 1 = (64 * 8 + 65 + 511) / 512 :=
  ⟨c2_block_count.2.1 3 (by decide),
   c2_block_count.2.2.1 64 (by decide) (by decide)⟩

/-! ## Known digest vectors -/

/-- Claim C3, counterexample: the digest the sha256 function computes for
the empty message is not the 63-character string quoted by the spec (the
quoted vector drops the final hex digit 5 of the standard value). -/
theorem c3_sha256_vectors_cex :
    sha256 (fun _ => 0) 0 ≠
      String.toList
        "e3b0c44298fc1c149afbf4c8996fb92427ae41e4649b934ca495991b7852b85" := by
  decide

/-- Claim C3 (amended): sha256 maps the empty message to the 64-character
digest e3b0c44298fc1c149afbf4c8996fb92427ae41e4649b934ca495991b7852b855
(the standard vector, with its final digit) and the 3-byte message "abc"
to ba7816bf8f01cfea414140de5dae2223b00361a396177a9cb410ff61f20015ad. -/
theorem c3_sha256_vectors :
    sha256 (fun _ => 0) 0 =
      String.toList
        "e3b0c44298fc1c149afbf4c8996fb92427ae41e4649b934ca495991b7852b855"
  ∧ sha256 (fun i => [97, 98, 99].getD i 0) 3 =
      String.toList
        "ba7816bf8f01cfea414140de5dae2223b00361a396177a9cb410ff61f20015ad" := by
  decide

/-- Claim C4: md5 maps the empty message to the 32-character digest
d41d8cd98f00b204e9800998ecf8427e and the 3-byte message "abc" to
900150983cd24fb0d6963f7d28e17f72. -/
theorem c4_md5_vectors :
    md5 (fun _ => 0) 0 = String.toList "d41d8cd98f00b204e9800998ecf8427e"
  ∧ md5 (fun i => [97, 98, 99].getD i 0) 3 =
      String.toList "900150983cd24fb0d6963f7d28e17f72" := by
  decide

/-! ## Dispatcher and allocation failure -/

/-- Claim C6: whenever the algorithm selector is absent or matches
neither "sha256" nor "md5", message_hash_create returns status 0 and the
caller's digest buffer exactly as it was given. -/
theorem c6_unsupported_algorithm (algorithm : Option String)
    (hash : List Char) (message : Nat → Nat) (size : Nat)
    (h : ∀ a, algorithm = some a → a ≠ "sha256" ∧ a ≠ "md5") :
    message_hash_create algorithm hash message size = (0, hash) := by
  match algorithm with
  | none => rfl
  | some a =>
    have ha := h a rfl
    simp only [message_hash_create]
    rw [if_neg ha.1, if_neg ha.2]

/-- Claim C6 witness: the dispatcher called with the unsupported selector
"sha1" on a concrete buffer returns status 0 and that same buffer. -/
theorem c6_unsupported_algorithm_witness :
    message_hash_create (some "sha1") ['x'] (fun _ => 0) 0 = (0, ['x']) :=
  c6_unsupported_algorithm (some "sha1") ['x'] (fun _ => 0) 0
    (fun a ha => by cases ha; exact ⟨by decide, by decide⟩)

/-- Claim C7 (code bug): md5 in md5.h never tests the result of malloc;
with the allocation outcome made explicit, the failing-allocation run of
the source reaches the null-pointer write inside md5_block_create and
ends in the modelled crash, not in a clean abort, while the successful
run returns the md5 digest. -/
theorem c7_allocation_failure (message : Nat → Nat) (size : Nat) :
    md5_run false message size =
      Except.error "null block dereference in md5_block_create"
  ∧ md5_run true message size = Except.ok (md5 message size) :=
  ⟨rfl, rfl⟩


/-! ## Digest format -/

/-- A lowercase hexadecimal digit, 0-9 or a-f. -/
def is_hex_char (c : Char) : Prop := ('0' ≤ c ∧ c ≤ '9') ∨ ('a' ≤ c ∧ c ≤ 'f')

instance (c : Char) : Decidable (is_hex_char c) := by
  unfold is_hex_char
  infer_instance

/-- Every %08x conversion writes exactly 8 characters. -/
lemma word_hex_length (w : Nat) : (word_hex w).length = 8 := by
  simp [word_hex]

/-- hs_hash always writes exactly 64 characters. -/
lemma hs_hash_length (hs : List Nat) : (hs_hash hs).length = 64 := by
  simp [hs_hash, List.range_succ, word_hex_length]

/-- Every nibble is rendered as a lowercase hex digit. -/
lemma hexChar_is_hex : ∀ n, n < 16 → is_hex_char (hexChar n) := by decide

/-- Every character of a %08x conversion is a lowercase hex digit. -/
lemma word_hex_is_hex {c : Char} {w : Nat} (hc : c ∈ word_hex w) :
    is_hex_char c := by
  simp [word_hex] at hc
  obtain ⟨i, hi, rfl⟩ := hc
  exact hexChar_is_hex _ (Nat.lt_succ_of_le Nat.and_le_right)

/-- Every character hs_hash writes is a lowercase hex digit. -/
lemma hs_hash_is_hex {c : Char} {hs : List Nat} (hc : c ∈ hs_hash hs) :
    is_hex_char c := by
  simp [hs_hash, List.mem_flatten] at hc
  obtain ⟨i, hi, hcw⟩ := hc
  exact word_hex_is_hex hcw

/-- md5_abcd_hash always writes exactly 32 characters. -/
lemma md5_abcd_hash_length (abcd : List Nat) :
    (md5_abcd_hash abcd).length = 32 := by
  simp [md5_abcd_hash, List.range_succ, word_hex_length]

/-- Every character md5_abcd_hash writes is a lowercase hex digit. -/
lemma md5_abcd_hash_is_hex {c : Char} {abcd : List Nat}
    (hc : c ∈ md5_abcd_hash abcd) : is_hex_char c := by
  simp [md5_abcd_hash, List.mem_flatten] at hc
  obtain ⟨i, hi, hcw⟩ := hc
  exact word_hex_is_hex hcw

/-- Claim C8: for every message and size the sha256 digest has exactly 64
characters, the md5 digest exactly 32, and every character of either is
a lowercase hexadecimal digit. -/
theorem c8_digest_format (message : Nat → Nat) (size : Nat) :
    (sha256 message size).length = 64
  ∧ (md5 message size).length = 32
  ∧ (∀ c ∈ sha256 message size, is_hex_char c)
  ∧ (∀ c ∈ md5 message size, is_hex_char c) := by
  refine ⟨?_, ?_, ?_, ?_⟩
  · simp only [sha256, block_hash]
    exact hs_hash_length _
  · simp only [md5, md5_block_hash]
    exact md5_abcd_hash_length _
  · intro c hc
    simp only [sha256, block_hash] at hc
    exact hs_hash_is_hex hc
  · intro c hc
    simp only [md5, md5_block_hash] at hc
    exact md5_abcd_hash_is_hex hc

/-- Claim C8 witness: the digest lengths for the empty message, and the
hex-digit property for the first character of its sha256 digest. -/
theorem c8_digest_format_witness :
    (sha256 (fun _ => 0) 0).length = 64
  ∧ (md5 (fun _ => 0) 0).length = 32
  ∧ is_hex_char 'e' :=
  ⟨(c8_digest_format (fun _ => 0) 0).1,
   (c8_digest_format (fun _ => 0) 0).2.1,
   (c8_digest_format (fun _ => 0) 0).2.2.1 'e' (by decide)⟩

/-! ## The digest reads only the first size bytes -/

/-- A foldl is unchanged when the step functions agree on the list. -/
lemma foldl_congr_mem {α β : Type} (l : List α) (f g : β → α → β) (b : β)
    (h : ∀ x ∈ l, ∀ acc, f acc x = g acc x) : l.foldl f b = l.foldl g b := by
  induction l generalizing b with
  | nil => rfl
  | cons x xs ih =>
    simp only [List.foldl_cons]
    rw [h x (by simp)]
    exact ih _ (fun y hy acc => h y (by simp [hy]) acc)

/-- block_message_prepend only reads message bytes at indices below
size. -/
lemma prepend_congr (block : List Nat) (m1 m2 : Nat → Nat) (size : Nat)
    (h : ∀ i, i < size → m1 i = m2 i) :
    block_message_prepend block m1 size
      = block_message_prepend block m2 size := by
  unfold block_message_prepend
  refine foldl_congr_mem _ _ _ _ ?_
  intro x hx acc
  rw [h x (List.mem_range.mp hx)]

/-- The MD5 bit packer is the same function as the SHA-256 bit packer
(the loops of md5_block_message_prepend are those of
block_message_prepend verbatim). -/
lemma md5_prepend_eq :
    @md5_block_message_prepend = @block_message_prepend := rfl

/-- Claim C9: for both algorithms the digest depends only on the first
size bytes of the message buffer. -/
theorem c9_prefix_only (size : Nat) (m1 m2 : Nat → Nat)
    (h : ∀ i, i < size → m1 i = m2 i) :
    sha256 m1 size = sha256 m2 size ∧ md5 m1 size = md5 m2 size := by
  have hp1 := prepend_congr (List.replicate (CHUNKS size * 16) 0) m1 m2 size h
  have hp2 := prepend_congr (List.replicate (MD5_CHUNKS size * 16) 0) m1 m2 size h
  constructor
  · simp only [sha256, block_create, hp1]
  · simp only [md5, md5_block_create, md5_bits_stage, md5_prepend_eq, hp2]

/-- Claim C9 witness: at size 0 two buffers that differ everywhere still
hash identically under both algorithms. -/
theorem c9_prefix_only_witness :
    sha256 (fun _ => 0) 0 = sha256 (fun _ => 1) 0
  ∧ md5 (fun _ => 0) 0 = md5 (fun _ => 1) 0 :=
  c9_prefix_only 0 (fun _ => 0) (fun _ => 1)
    (fun i hi => absurd hi (Nat.not_lt_zero i))

/-! ## MD5 endianness pipeline -/

/-- getD after set at the same index, inside the list. -/
lemma getD_set_self (l : List Nat) (i : Nat) (a : Nat) (h : i < l.length) :
    (l.set i a).getD i 0 = a := by
  simp [List.getD_eq_getElem?_getD, List.getElem?_set_self, h]

/-- getD after set at a different index. -/
lemma getD_set_ne (l : List Nat) (i j : Nat) (a : Nat) (h : i ≠ j) :
    (l.set i a).getD j 0 = l.getD j 0 := by
  simp [List.getD_eq_getElem?_getD, List.getElem?_set_ne h]

/-- A foldl whose step preserves list length preserves list length. -/
lemma foldl_length_inv {α : Type} (l : List α) (f : List Nat → α → List Nat)
    (b : List Nat) (h : ∀ acc x, (f acc x).length = acc.length) :
    (l.foldl f b).length = b.length := by
  induction l generalizing b with
  | nil => rfl
  | cons x xs ih =>
    simp only [List.foldl_cons]
    rw [ih (f b x), h b x]

/-- The little-endian conversion loop of md5_block_create preserves the
block length. -/
lemma lendian_fold_length (n : Nat) (b : List Nat) :
    ((List.range n).foldl
      (fun b index => b.set index (MD5_LENDIAN (b.getD index 0))) b).length
    = b.length :=
  foldl_length_inv _ _ _ (fun acc x => List.length_set acc x _)

/-- Pointwise effect of the little-endian conversion loop of
md5_block_create: the first n words are byte-order-reversed, the rest
untouched. -/
lemma lendian_fold_getD (n : Nat) (b : List Nat) (j : Nat)
    (hj : j < b.length) :
    ((List.range n).foldl
      (fun b index => b.set index (MD5_LENDIAN (b.getD index 0))) b).getD j 0
    = if j < n then MD5_LENDIAN (b.getD j 0) else b.getD j 0 := by
  induction n with
  | zero => simp
  | succ m ih =>
    rw [List.range_succ, List.foldl_append]
    simp only [List.foldl_cons, List.foldl_nil]
    by_cases hjm : j = m
    · subst hjm
      rw [getD_set_self _ _ _ (by rw [lendian_fold_length]; exact hj), ih]
      simp [Nat.lt_irrefl, Nat.lt_succ_self]
    · rw [getD_set_ne _ _ _ _ (fun hh => hjm hh.symm), ih]
      by_cases hlt : j < m
      · simp [hlt, Nat.lt_succ_of_lt hlt]
      · have hns : ¬ j < m + 1 := by omega
        simp [hlt, hns]

/-- md5_block_message_prepend preserves the block length. -/
lemma md5_prepend_length (block : List Nat) (m : Nat → Nat) (s : Nat) :
    (md5_block_message_prepend block m s).length = block.length := by
  unfold md5_block_message_prepend
  refine foldl_length_inv _ _ _ (fun acc x => ?_)
  refine foldl_length_inv _ _ _ (fun acc2 bit => ?_)
  by_cases hb : m x &&& (1 <<< (7 - bit)) ≠ 0
  · simp [hb, MD5_BIT_SET]
  · simp [hb, MD5_BIT_OFF]

/-- The bit stage of md5_block_create preserves the block length. -/
lemma md5_bits_stage_length (block : List Nat) (zeros : Nat)
    (m : Nat → Nat) (s : Nat) :
    (md5_bits_stage block zeros m s).length = block.length := by
  unfold md5_bits_stage
  rw [foldl_length_inv _ _ _ (fun acc x => by simp [MD5_BIT_OFF])]
  simp [MD5_BIT_SET, md5_prepend_length]

/-- Word-level characterisation of md5_block_create: every word below
chunks * 16 - 2 is the byte-order-reversal of the corresponding bit-stage
word, the word at chunks * 16 - 2 is the low half of the 64-bit bit
length and the word at chunks * 16 - 1 its high half. -/
lemma md5_block_create_getD (block : List Nat) (chunks zeros : Nat)
    (m : Nat → Nat) (s : Nat) (hlen : block.length = chunks * 16)
    (hch : 1 ≤ chunks) :
    (∀ i, i < chunks * 16 - 2 →
      (md5_block_create block chunks zeros m s).getD i 0
        = MD5_LENDIAN ((md5_bits_stage block zeros m s).getD i 0))
  ∧ (md5_block_create block chunks zeros m s).getD (chunks * 16 - 2) 0
      = (s * 8 % 18446744073709551616) % 4294967296
  ∧ (md5_block_create block chunks zeros m s).getD (chunks * 16 - 1) 0
      = ((s * 8 % 18446744073709551616) >>> 32) % 4294967296 := by
  have h16 : 16 ≤ chunks * 16 := by omega
  have hb : (md5_bits_stage block zeros m s).length = chunks * 16 := by
    rw [md5_bits_stage_length, hlen]
  simp only [md5_block_create]
  refine ⟨fun i hi => ?_, ?_, ?_⟩
  · rw [getD_set_ne _ _ _ _ (by omega),
      getD_set_ne _ _ _ _ (by omega),
      lendian_fold_getD _ _ _ (by rw [hb]; omega)]
    simp [hi]
  · rw [getD_set_self _ _ _
      (by rw [List.length_set, lendian_fold_length, hb]; omega)]
  · rw [getD_set_ne _ _ _ _ (by omega),
      getD_set_self _ _ _ (by rw [lendian_fold_length, hb]; omega)]

/-- Claim C5: the MD5 bit packer is byte-identical to the SHA-256 one
(same most-significant-bit-first order); md5_block_create byte-order-
reverses every word of the block sequence except the final two, writes
the 64-bit bit length as little-endian halves (low word at index
chunks * 16 - 2, high word at index chunks * 16 - 1); and the digest
encoder formats the MD5_LENDIAN byte swap of each of the 4 state words
as 8 hex characters each, in order. -/
theorem c5_md5_endianness :
    (∀ (block : List Nat) (message : Nat → Nat) (size : Nat),
        md5_block_message_prepend block message size
          = block_message_prepend block message size)
  ∧ (∀ (block : List Nat) (chunks zeros : Nat) (message : Nat → Nat)
        (size : Nat), block.length = chunks * 16 → 1 ≤ chunks →
        (∀ i, i < chunks * 16 - 2 →
          (md5_block_create block chunks zeros message size).getD i 0
            = MD5_LENDIAN ((md5_bits_stage block zeros message size).getD i 0))
      ∧ (md5_block_create block chunks zeros message size).getD
            (chunks * 16 - 2) 0
          = (size * 8 % 18446744073709551616) % 4294967296
      ∧ (md5_block_create block chunks zeros message size).getD
            (chunks * 16 - 1) 0
          = ((size * 8 % 18446744073709551616) >>> 32) % 4294967296)
  ∧ (∀ a b c d : Nat,
        md5_abcd_hash [a, b, c, d]
          = word_hex (MD5_LENDIAN a) ++ word_hex (MD5_LENDIAN b)
            ++ word_hex (MD5_LENDIAN c) ++ word_hex (MD5_LENDIAN d)) := by
  refine ⟨fun block message size => rfl,
    fun block chunks zeros message size hlen hch =>
      md5_block_create_getD block chunks zeros message size hlen hch,
    fun a b c d => ?_⟩
  simp [md5_abcd_hash, List.range_succ, List.append_assoc]

/-- Claim C5 witness: the block characterisation evaluated on the
one-chunk empty-message block, and the packer identity at a concrete
call. -/
theorem c5_md5_endianness_witness :
    (md5_block_create (List.replicate 16 0) 1 447 (fun _ => 0) 0).getD 0 0
      = MD5_LENDIAN
          ((md5_bits_stage (List.replicate 16 0) 447 (fun _ => 0) 0).getD 0 0)
  ∧ (md5_block_create (List.replicate 16 0) 1 447 (fun _ => 0) 0).getD 14 0
      = (0 * 8 % 18446744073709551616) % 4294967296
  ∧ md5_block_message_prepend [] (fun _ => 0) 0
      = block_message_prepend [] (fun _ => 0) 0 :=
  ⟨(c5_md5_endianness.2.1 (List.replicate 16 0) 1 447 (fun _ => 0) 0
      (by decide) (by decide)).1 0 (by decide),
   (c5_md5_endianness.2.1 (List.replicate 16 0) 1 447 (fun _ => 0) 0
      (by decide) (by decide)).2.1,
   c5_md5_endianness.1 [] (fun _ => 0) 0⟩
